import Mathlib

/-!
Verification development for the map-file validation engine
(`frontend/validate_map.py` and `infra/lambda/input_handler/handler.py`).

The Python code is shallowly embedded as follows:

* strings are `List Char`; the regex character classes `\d`, `\s` and the
  `str.strip` / `str.isalnum`-style checks are modelled at their ASCII
  meaning (all inputs appearing in the claims are ASCII);
* Python floats are modelled as `ℚ` (all transform arithmetic in the
  claims is exact in binary floating point, so the rational model is
  faithful on them); `math.ceil` is `Int.ceil`;
* files are modelled by their contents: a world-file sidecar is the list
  of its lines, each line given by its parse result (`some q` when Python
  `float(line)` succeeds with value `q`, `none` otherwise); an image file
  is its byte list (`List Nat`, each `< 256` where relevant);
* the JPEG header loop, which is a `while True` in the source, is given
  an explicit fuel parameter: `none` means the loop is still running
  after `fuel` iterations, so "diverges" is "`none` for every fuel";
* error messages are abbreviated to one inductive tag per distinct
  `raise` / early-`return` site of the source.
-/

/-! ### Character classes (ASCII readings of the Python predicates) -/

/-- Python regex `\d` (digit), at its ASCII meaning. -/
def isDig (c : Char) : Bool := c.isDigit

/-- Python regex character class `[-\s_]` used as the sheet-number
separator: hyphen, underscore, or whitespace. -/
def sepChar (c : Char) : Bool :=
  c == '-' || c == '_' || c == ' ' || c == '\t' || c == '\n' ||
  c == '\r' || c == '\x0b' || c == '\x0c'

/-- Python `str.strip()`-whitespace. -/
def pyIsSpace (c : Char) : Bool :=
  c == ' ' || c == '\t' || c == '\n' || c == '\r' || c == '\x0b' || c == '\x0c'

/-- Python regex class `[a-zA-Z0-9]`. -/
def isAlnumAscii (c : Char) : Bool := c.isAlpha || c.isDigit

/-! ### The sheet-number pattern `(?<!\d)(\d{2}[-\s_]\d{4}|\d{6})(?=[-\s_]|$)`
shared by `get_sheet_number_from_filename` (validate_map.py, which searches
for it anywhere) and `validate_filename` (handler.py, which anchors it at
the start of the part after the first underscore). -/

/-- The trailing lookahead `(?=[-\s_]|$)`: end of string or a separator. -/
def nextOk : List Char → Bool
  | [] => true
  | c :: _ => sepChar c

/-- Alternative 1 of the pattern: `\d{2}[-\s_]\d{4}` followed by the
lookahead; matches a 7-character prefix of the argument. -/
def pat1 : List Char → Bool
  | c0 :: c1 :: c2 :: c3 :: c4 :: c5 :: c6 :: rest =>
      isDig c0 && isDig c1 && sepChar c2 && isDig c3 && isDig c4 &&
      isDig c5 && isDig c6 && nextOk rest
  | _ => false

/-- Alternative 2 of the pattern: `\d{6}` followed by the lookahead;
matches a 6-character prefix of the argument. -/
def pat2 : List Char → Bool
  | c0 :: c1 :: c2 :: c3 :: c4 :: c5 :: rest =>
      isDig c0 && isDig c1 && isDig c2 && isDig c3 && isDig c4 &&
      isDig c5 && nextOk rest
  | _ => false

/-- The negative lookbehind `(?<!\d)` at position `i`. -/
def lookbehindOK (s : List Char) (i : Nat) : Bool :=
  i == 0 || ! isDig (s.getD (i - 1) ' ')

/-- Attempt of the alternation at position `i` (alternative 1 first, as
the regex engine does); returns the length of the match. -/
def patternAt (s : List Char) (i : Nat) : Option Nat :=
  if pat1 (s.drop i) then some 7
  else if pat2 (s.drop i) then some 6
  else none

/-- Leftmost match of the full pattern, as `re.search` finds it: first
position (scanning left to right) whose lookbehind holds and where the
alternation matches; returns (start index, match length). -/
def findPattern (s : List Char) : Option (Nat × Nat) :=
  (List.range (s.length + 1)).findSome? fun i =>
    if lookbehindOK s i then (patternAt s i).map (fun len => (i, len)) else none

/-- Python `filename.rsplit(sep, 1)[0]` for a one-character separator `'.'`:
everything before the last dot, or the whole string when it has no dot. -/
def dropExt (s : List Char) : List Char :=
  if s.contains '.' then ((s.reverse.dropWhile fun c => c != '.').drop 1).reverse
  else s

/-! ### validate_map.py: `get_sheet_number_from_filename` -/

/-- Body of `get_sheet_number_from_filename` (validate_map.py, lines
25-89), returning both values the source computes: the extracted sheet
number and the cleaned seam id (the source returns only the former). -/
def parse_filename_parts (filename : List Char) : Option (List Char × List Char) :=
  let name_without_ext := dropExt filename
  if ¬ name_without_ext.contains '_' then none
  else
    match findPattern name_without_ext with
    | none => none
    | some (i, len) =>
      let sheet_number := ((name_without_ext.drop i).take len).filter isDig
      let seam_id := name_without_ext.take i
      if seam_id = [] ∨ seam_id.getLast? ≠ some '_' then none
      else
        let seam_id_clean := seam_id.dropLast
        if seam_id_clean = [] ∨ seam_id_clean.all pyIsSpace then none
        else if ¬ seam_id_clean.all isAlnumAscii then none
        else some (sheet_number, seam_id_clean)

/-- `get_sheet_number_from_filename` (validate_map.py): the sheet number
the pattern-search parser extracts, or `none` on any failed check. -/
def get_sheet_number_from_filename (filename : List Char) : Option (List Char) :=
  (parse_filename_parts filename).map Prod.fst

/-! ### handler.py: `validate_filename` -/

/-- Error branches of `validate_filename` (handler.py), abbreviating the
returned error-message strings. -/
inductive VfErr where
  | missingUnderscore
  | missingSeam
  | badSeam
  | missingSheet
  | noDigits
  | tooFew (n : Nat)
  | tooMany (n : Nat)
  | misplaced
  deriving DecidableEq

/-- Return value of `validate_filename`: the source's tuple
`(is_valid, seam_id, sheet_number, error_message)`. -/
structure VfResult where
  is_valid : Bool
  seam_id : List Char
  sheet_number : List Char
  message : Option VfErr
  deriving DecidableEq

/-- Case-insensitive suffix test used to model
`re.sub(r'\.(zip|jpg|jpeg|tif|tiff)$', '', filename, flags=re.IGNORECASE)`. -/
def lowerEndsWith (s suffixChars : List Char) : Bool :=
  suffixChars.isSuffixOf (s.map Char.toLower)

/-- Extension stripping of `validate_filename`: remove one final
`.zip/.jpg/.jpeg/.tif/.tiff` (case-insensitively), else leave unchanged. -/
def stripKnownExt (s : List Char) : List Char :=
  if lowerEndsWith s (".zip".toList) || lowerEndsWith s (".jpg".toList) ||
     lowerEndsWith s (".tif".toList) then
    s.take (s.length - 4)
  else if lowerEndsWith s (".jpeg".toList) || lowerEndsWith s (".tiff".toList) then
    s.take (s.length - 5)
  else s

/-- `validate_filename` (handler.py, lines 48-110): the rigid
split-at-first-underscore parser. `re.match` of format 1
`^(\d{2})[-\s_](\d{4})(?:[-\s_]|$)` accepts exactly when `pat1` holds of
the part after the seam id, and format 2 `^(\d{6})(?:[-\s_]|$)` exactly
when `pat2` does. -/
def validate_filename (filename : List Char) : VfResult :=
  let name_without_ext := stripKnownExt filename
  if ¬ name_without_ext.contains '_' then ⟨false, [], [], some .missingUnderscore⟩
  else
    let idx := (name_without_ext.takeWhile fun c => c != '_').length
    let seam_id := name_without_ext.take idx
    let after_seam_id := name_without_ext.drop (idx + 1)
    if seam_id = [] ∨ seam_id.all pyIsSpace then ⟨false, [], [], some .missingSeam⟩
    else if ¬ seam_id.all isAlnumAscii then ⟨false, seam_id, [], some .badSeam⟩
    else if after_seam_id = [] ∨ after_seam_id.all pyIsSpace then
      ⟨false, seam_id, [], some .missingSheet⟩
    else if pat1 after_seam_id then
      ⟨true, seam_id, (after_seam_id.take 7).filter isDig, none⟩
    else if pat2 after_seam_id then
      ⟨true, seam_id, after_seam_id.take 6, none⟩
    else
      let all_digits := after_seam_id.filter isDig
      if all_digits.length = 0 then ⟨false, seam_id, [], some .noDigits⟩
      else if all_digits.length < 6 then
        ⟨false, seam_id, [], some (.tooFew all_digits.length)⟩
      else if all_digits.length > 6 then
        ⟨false, seam_id, [], some (.tooMany all_digits.length)⟩
      else ⟨false, seam_id, [], some .misplaced⟩

/-! ### validate_map.py: `read_world_file` -/

/-- The six affine coefficients `(a, d, b, e, c, f)` of a world file, with
`x' = a*x + b*y + c` and `y' = d*x + e*y + f`. -/
structure AffineTransform where
  a : ℚ
  d : ℚ
  b : ℚ
  e : ℚ
  c : ℚ
  f : ℚ
  deriving DecidableEq

/-- The two error messages `read_world_file` raises. -/
inductive WorldErr where
  | noWorldFile
  | invalidFormat
  deriving DecidableEq

/-- A world-file sidecar is its list of lines, each line replaced by its
Python `float(...)` parse result. -/
abbrev WorldLines := List (Option ℚ)

/-- The sidecar `read_world_file` reads: the loop over
`[jpg_path.with_suffix(".jgwx"), jpg_path.with_suffix(".jgw")]` reads the
first file that exists (preferring `.jgwx`). -/
def selectWorldFile (jgwx jgw : Option WorldLines) : Option WorldLines :=
  jgwx.orElse fun _ => jgw

/-- `read_world_file` (validate_map.py, lines 161-185). An existing but
empty sidecar also falls into the `if not contents` branch of the source.
The pattern match encodes `len(contents) == 6` together with
`all(is_number(i) for i in contents)` and the positional extraction
`a, d, b, e, c, f := lines 1..6`. -/
def read_world_file (jgwx jgw : Option WorldLines) : Except WorldErr AffineTransform :=
  match selectWorldFile jgwx jgw with
  | none => .error .noWorldFile
  | some contents =>
    if contents.isEmpty then .error .noWorldFile
    else
      match contents with
      | [some a, some d, some b, some e, some c, some f] => .ok ⟨a, d, b, e, c, f⟩
      | _ => .error .invalidFormat

/-! ### validate_map.py: `get_image_dimensions` (JPEG header scan) -/

/-- The three error messages of the JPEG branch of `get_image_dimensions`. -/
inductive JpegErr where
  | notAJpeg
  | truncated
  | invalidMarker
  deriving DecidableEq

deriving instance DecidableEq for Except

/-- Byte of a stream at index `i` (0 past the end, where the Python code
can only reach it through short reads). -/
def byteAt (bs : List Nat) (i : Nat) : Nat := bs.getD i 0

/-- Python `int.from_bytes(bs, 'big')` (also of short reads: the empty
read gives 0, a 1-byte read gives that byte). -/
def beVal (l : List Nat) : Nat := l.foldl (fun acc b => 256 * acc + b) 0

/-- One `while True` iteration of the scan in `get_image_dimensions`
(validate_map.py, lines 202-219), starting with the file position at `p`;
`f.read(k)` at position `q` returns `(bs.drop q).take k` and leaves the
position at `min (q + k) bs.length`, and `f.seek(d, 1)` adds `d` (the
seek target is never negative here since `p ≥ 2` on every call). The
loop itself is fuel-indexed: `none` means fuel ran out with the loop
still running. -/
def jpegScan : Nat → List Nat → Nat → Option (Except JpegErr (Nat × Nat))
  | 0, _, _ => none
  | fuel + 1, bs, p =>
    let marker := (bs.drop p).take 2
    if marker.length ≠ 2 then some (.error .truncated)
    else if marker.getD 0 0 ≠ 255 then some (.error .invalidMarker)
    else if marker.getD 1 0 = 192 ∨ marker.getD 1 0 = 193 ∨ marker.getD 1 0 = 194 then
      let q1 := min (p + 2 + 3) bs.length
      let height := beVal ((bs.drop q1).take 2)
      let q2 := min (q1 + 2) bs.length
      let width := beVal ((bs.drop q2).take 2)
      some (.ok (width, height))
    else
      let seglen := beVal ((bs.drop (p + 2)).take 2)
      let q := min (p + 2 + 2) bs.length
      jpegScan fuel bs (q + seglen - 2)

/-- `get_image_dimensions` on the `.jpg` path (validate_map.py, lines
194-219), on the byte contents of the file: check the 2-byte SOI marker,
then run the segment scan from position 2. -/
def get_image_dimensions (fuel : Nat) (bs : List Nat) : Option (Except JpegErr (Nat × Nat)) :=
  if bs.take 2 = [255, 216] then jpegScan fuel bs 2
  else some (.error .notAJpeg)

/-! ### validate_map.py: affine geometry -/

/-- `apply_transform` (validate_map.py, lines 226-236). -/
def apply_transform (pixel_x pixel_y : ℚ) (t : AffineTransform) : ℚ × ℚ :=
  (t.a * pixel_x + t.b * pixel_y + t.c, t.d * pixel_x + t.e * pixel_y + t.f)

/-- Python `str(n)` of an integer, as a character list. -/
def pyIntStr (n : ℤ) : List Char :=
  if n < 0 then '-' :: Nat.toDigits 10 n.natAbs else Nat.toDigits 10 n.toNat

/-- `determine_sheet_number_from_coords` (validate_map.py, lines 239-254):
transform the bottom-left pixel `(0, height)`, round each coordinate up
with `math.ceil(v / 1000) * 1000`, format as `str`, and splice
`x[0] + y[0] + x[1:3] + y[1:3]` (Python slices: `s[0]` is `take 1` of a
never-empty string, `s[1:3]` is `take 2` of `drop 1`). -/
def determine_sheet_number_from_coords (width height : Nat) (t : AffineTransform) :
    List Char :=
  let bl := apply_transform 0 (height : ℚ) t
  let x := pyIntStr (⌈bl.1 / 1000⌉ * 1000)
  let y := pyIntStr (⌈bl.2 / 1000⌉ * 1000)
  x.take 1 ++ y.take 1 ++ (x.drop 1).take 2 ++ (y.drop 1).take 2

/-- Bounding boxes in georeferenced coordinates. -/
structure GeoBounds where
  left : ℚ
  right : ℚ
  top : ℚ
  bottom : ℚ
  deriving DecidableEq

/-- Value of a decimal digit character, as `int` applied to the
digit strings built in `get_map_bounds`. -/
def digVal (c : Char) : ℤ := (c.toNat : ℤ) - 48

/-- `get_map_bounds` (validate_map.py, lines 257-278):
`left = int(sheet[0] + sheet[2] + sheet[3]) * 1000`,
`bottom = int(sheet[1] + sheet[4] + sheet[5]) * 1000`, a 2000 x 1000
sheet, shrunk inwards by `shrink_m` (the sheet number is always 6 digits
when this is called, so indexing with a `'0'` default is faithful). -/
def get_map_bounds (sheet_number : List Char) (shrink_m : ℚ) : GeoBounds :=
  let left : ℚ :=
    ((100 * digVal (sheet_number.getD 0 '0') + 10 * digVal (sheet_number.getD 2 '0') +
        digVal (sheet_number.getD 3 '0')) * 1000 : ℤ)
  let bottom : ℚ :=
    ((100 * digVal (sheet_number.getD 1 '0') + 10 * digVal (sheet_number.getD 4 '0') +
        digVal (sheet_number.getD 5 '0')) * 1000 : ℤ)
  { left := left + shrink_m
    right := left + 2000 - shrink_m
    top := bottom + 1000 - shrink_m
    bottom := bottom + shrink_m }

/-- `get_image_bounds` (validate_map.py, lines 281-300): bounding box of
the four transformed pixel corners. -/
def get_image_bounds (width height : Nat) (t : AffineTransform) : GeoBounds :=
  let top_left := apply_transform 0 0 t
  let top_right := apply_transform (width : ℚ) 0 t
  let bottom_right := apply_transform (width : ℚ) (height : ℚ) t
  let bottom_left := apply_transform 0 (height : ℚ) t
  { left := min (min (min top_left.1 top_right.1) bottom_right.1) bottom_left.1
    right := max (max (max top_left.1 top_right.1) bottom_right.1) bottom_left.1
    top := max (max (max top_left.2 top_right.2) bottom_right.2) bottom_left.2
    bottom := min (min (min top_left.2 top_right.2) bottom_right.2) bottom_left.2 }

/-- `bounds_contains` (validate_map.py, lines 303-310). -/
def bounds_contains (outer inner : GeoBounds) : Prop :=
  outer.left ≤ inner.left ∧ outer.right ≥ inner.right ∧
  outer.bottom ≤ inner.bottom ∧ outer.top ≥ inner.top

instance (outer inner : GeoBounds) : Decidable (bounds_contains outer inner) := by
  unfold bounds_contains; infer_instance

/-! ### validate_map.py: `validate_map_file` (the orchestrator) -/

/-- One extracted archive member: its base file name, the two candidate
world-file sidecars that `jpg_path.with_suffix(...)` would find for it,
and its byte contents. -/
structure ZEntry where
  name : List Char
  jgwx : Option WorldLines
  jgw : Option WorldLines
  bytes : List Nat
  deriving DecidableEq

/-- An uploaded archive: either one `zipfile.BadZipFile` raises on, or
the list of extracted members (in directory-iteration order). -/
inductive Archive where
  | corrupt
  | entries (es : List ZEntry)
  deriving DecidableEq

/-- Error branches of `validate_map_file`, abbreviating the result's
`error` message strings. -/
inductive VErr where
  | filenameInvalid
  | badZip
  | noImage
  | multipleImages (n : Nat)
  | worldFile (e : WorldErr)
  | nearOrigin
  | dims (e : JpegErr)
  | sheetMismatch (fsn asn : List Char)
  | boundsNotContained
  | unsupportedFormat (suffixChars : List Char)
  deriving DecidableEq

/-- The orchestrator's result dict: `valid`, `error`,
`filename_sheet_number`, `actual_sheet_number`, `warning` (the TIFF
warning message abbreviated to `some ()`). -/
structure VResult where
  valid : Bool
  error : Option VErr
  filename_sheet_number : Option (List Char)
  actual_sheet_number : Option (List Char)
  warning : Option Unit
  deriving DecidableEq

/-- Match of `temp_path.rglob("*.jpg")` together with the
`not f.name.startswith(".")` filter. `Path.rglob` pattern matching is
case-sensitive on the POSIX path flavour the deployment runs on, so only
the lowercase extension matches. -/
def startsWithDot : List Char → Bool
  | [] => false
  | c :: _ => c == '.'

/-- Entry enumerated by the `*.jpg` glob and the hidden-file filter. -/
def isJpgName (s : List Char) : Bool :=
  (".jpg".toList).isSuffixOf s && ! startsWithDot s

/-- Entry enumerated by the `*.tif` glob and the hidden-file filter. -/
def isTifName (s : List Char) : Bool :=
  (".tif".toList).isSuffixOf s && ! startsWithDot s

/-- `image_files = jpg_files + tif_files` (validate_map.py, lines
344-346). -/
def imageEntries (es : List ZEntry) : List ZEntry :=
  (es.filter fun e => isJpgName e.name) ++ (es.filter fun e => isTifName e.name)

/-- Python `Path(name).suffix` for the non-hidden file names this code
reaches (they all end in a real extension): the last dot and what
follows it, or empty without a dot. -/
def pathSuffix (s : List Char) : List Char :=
  if s.contains '.' then '.' :: (s.reverse.takeWhile fun c => c != '.').reverse
  else []

/-- Tail of the `.jpg` branch of `validate_map_file` after the world
file has been read (validate_map.py, lines 366-414): the near-origin
guard on `transform[4]` and `transform[5]`, the dimension read, the
sheet-number comparison and the bounds check. `none` propagates a JPEG
scan that is still running after `fuel` iterations. -/
def processJpg (img : ZEntry) (fsn : List Char) (t : AffineTransform) (fuel : Nat) :
    Option VResult :=
  if -5 < t.c ∧ t.c < 5 ∧ -5 < t.f ∧ t.f < 5 then
    some ⟨false, some .nearOrigin, some fsn, none, none⟩
  else
    match get_image_dimensions fuel img.bytes with
    | none => none
    | some (.error e) => some ⟨false, some (.dims e), some fsn, none, none⟩
    | some (.ok (w, h)) =>
      if fsn ≠ determine_sheet_number_from_coords w h t then
        some ⟨false, some (.sheetMismatch fsn (determine_sheet_number_from_coords w h t)),
          some fsn, some (determine_sheet_number_from_coords w h t), none⟩
      else if ¬ bounds_contains (get_image_bounds w h t) (get_map_bounds fsn 2) then
        some ⟨false, some .boundsNotContained, some fsn,
          some (determine_sheet_number_from_coords w h t), none⟩
      else some ⟨true, none, some fsn, some (determine_sheet_number_from_coords w h t), none⟩

/-- Branch of `validate_map_file` on the single image's extension
(validate_map.py, lines 359-385): `.jpg` reads the world file, `.tif`
returns valid-with-warning, anything else is unsupported. -/
def processImage (img : ZEntry) (fsn : List Char) (fuel : Nat) : Option VResult :=
  if (pathSuffix img.name).map Char.toLower = ".jpg".toList then
    match read_world_file img.jgwx img.jgw with
    | .error e => some ⟨false, some (.worldFile e), some fsn, none, none⟩
    | .ok t => processJpg img fsn t fuel
  else if (pathSuffix img.name).map Char.toLower = ".tif".toList then
    some ⟨true, none, some fsn, none, some ()⟩
  else
    some ⟨false, some (.unsupportedFormat ((pathSuffix img.name).map Char.toLower)),
      some fsn, none, none⟩

/-- `validate_map_file` (validate_map.py, lines 313-421): filename
parse, archive extraction, image enumeration, then the per-image
branches; `none` when the run is still inside the JPEG scan after
`fuel` iterations (and only then). -/
def validate_map_file (arch : Archive) (original_filename : List Char) (fuel : Nat) :
    Option VResult :=
  match get_sheet_number_from_filename original_filename with
  | none => some ⟨false, some .filenameInvalid, none, none, none⟩
  | some fsn =>
    match arch with
    | .corrupt => some ⟨false, some .badZip, some fsn, none, none⟩
    | .entries es =>
      match imageEntries es with
      | [] => some ⟨false, some .noImage, some fsn, none, none⟩
      | [img] => processImage img fsn fuel
      | _ :: rest2 :: rest =>
        some ⟨false, some (.multipleImages (rest.length + 2)), some fsn, none, none⟩


/-! ### Spec-side definitions (stated from the specification's words, for
comparison against the source-derived definitions above) -/

/-- Spec wording of the rounding in sheet-number derivation: round up to
the next multiple of 1000 (the source computes `math.ceil(v/1000)*1000`). -/
def specRoundUp1000 (v : ℚ) : ℤ := ⌈v / 1000⌉ * 1000

/-- Spec wording of the sheet-number digit splice: first digit of the
x-string, first digit of the y-string, 2nd-3rd digits of the x-string,
2nd-3rd digits of the y-string. -/
def specSheetInterleave (x y : List Char) : List Char :=
  x.take 1 ++ y.take 1 ++ (x.drop 1).take 2 ++ (y.drop 1).take 2

/-- Spec wording of the archive image matcher of claim C7: name ends in
`.jpg` or `.tif` case-insensitively, and the entry is not hidden. -/
def specImageMatchCI (s : List Char) : Bool :=
  ((".jpg".toList).isSuffixOf (s.map Char.toLower) ||
    (".tif".toList).isSuffixOf (s.map Char.toLower)) && ! startsWithDot s

/-! ### Concrete inputs used by the claims -/

/-- The transform of the spec's concrete scenario 4: world file lines
`100.0 / 0.0 / 0.0 / -100.0 / 500000.0 / 6000000.0` read positionally as
`(a, d, b, e, c, f)`. -/
def sampleTransform : AffineTransform := ⟨100, 0, 0, -100, 500000, 6000000⟩

/-- A JPEG stream (SOI, then an APP0 marker whose 2-byte length field
lies past the end of file) on which the header scan never terminates. -/
def badJpegBytes : List Nat := [255, 216, 255, 224]

/-- Archive entry holding `badJpegBytes` with a well-formed,
far-from-origin world file. -/
def loopEntry : ZEntry :=
  ⟨"a.jpg".toList,
   some [some 100, some 0, some 0, some (-100), some 500000, some 6000000],
   none, badJpegBytes⟩

/-- Archive entry with a near-origin world file (`c = f = 0`). -/
def nearOriginEntry : ZEntry :=
  ⟨"a.jpg".toList,
   some [some 100, some 0, some 0, some (-100), some 0, some 0],
   none, []⟩

/-- Archive entry whose (non-hidden) name carries an uppercase `.JPG`
extension. -/
def upperJpgEntry : ZEntry := ⟨"A.JPG".toList, none, none, []⟩

/-- Two plain lowercase `.jpg` entries. -/
def jpgEntryA : ZEntry := ⟨"a.jpg".toList, none, none, []⟩

/-- Second lowercase `.jpg` entry. -/
def jpgEntryB : ZEntry := ⟨"b.jpg".toList, none, none, []⟩

/-- Divergence of the JPEG scan on a stream: no amount of fuel makes
`get_image_dimensions` return. -/
def gidDiverges (bs : List Nat) : Prop :=
  ∀ fuel, get_image_dimensions fuel bs = none

/-- Divergence of the whole validation on an input: no amount of fuel
makes `validate_map_file` return. -/
def vmfDiverges (arch : Archive) (original_filename : List Char) : Prop :=
  ∀ fuel, validate_map_file arch original_filename fuel = none

/-! ### Helper lemmas -/

/-- A 2-byte read at `p` with at least 2 bytes available. -/
theorem take_two_of_drop : ∀ (bs : List Nat) (p : Nat), p + 2 ≤ bs.length →
    (bs.drop p).take 2 = [byteAt bs p, byteAt bs (p + 1)]
  | [], p, h => by simp at h
  | [a], 0, h => by simp at h
  | a :: b :: t, 0, _ => rfl
  | a :: t, p + 1, h => by
      have ih := take_two_of_drop t p (by simpa using h)
      simpa [byteAt] using ih

theorem beVal_two (a b : Nat) : beVal [a, b] = 256 * a + b := by
  simp [beVal]

theorem getD_pair_zero (x y : Nat) : [x, y].getD 0 0 = x := rfl

theorem getD_pair_one (x y : Nat) : [x, y].getD 1 0 = y := rfl

/-- A name ending in `.jpg` has (lower-cased) path suffix `.jpg`. -/
theorem pathSuffix_jpg {s : List Char} (h : (".jpg".toList).isSuffixOf s = true) :
    (pathSuffix s).map Char.toLower = ".jpg".toList := by
  obtain ⟨t, rfl⟩ := List.isSuffixOf_iff_suffix.mp h
  have hc : (t ++ (".jpg".toList)).contains '.' = true := by simp
  rw [pathSuffix, if_pos hc]
  have hrev : (t ++ (".jpg".toList)).reverse = 'g' :: 'p' :: 'j' :: '.' :: t.reverse := by
    simp [List.reverse_append]
  rw [hrev]
  have htw : ('g' :: 'p' :: 'j' :: '.' :: t.reverse).takeWhile (fun c => c != '.') =
      ['g', 'p', 'j'] := by
    simp [List.takeWhile_cons]
  rw [htw]
  decide

/-- On `badJpegBytes` the scan re-reads the same `FF E0` marker forever:
from position 2, the 2-byte length read hits end of file (value 0) and
`f.seek(-2, 1)` moves back to position 2. -/
theorem jpegScan_badJpegBytes : ∀ fuel, jpegScan fuel badJpegBytes 2 = none := by
  intro fuel
  induction fuel with
  | zero => rfl
  | succ n ih =>
      have hstep : jpegScan (n + 1) badJpegBytes 2 = jpegScan n badJpegBytes 2 := rfl
      rw [hstep, ih]

/-- `get_image_dimensions` inherits the divergence on `badJpegBytes`. -/
theorem gid_badJpegBytes : ∀ fuel, get_image_dimensions fuel badJpegBytes = none := by
  intro fuel
  have h : get_image_dimensions fuel badJpegBytes = jpegScan fuel badJpegBytes 2 := rfl
  rw [h, jpegScan_badJpegBytes]

/-- The bottom-left pixel of the spec's concrete scenario. -/
theorem sample_bottom_left :
    apply_transform 0 ((10 : Nat) : ℚ) sampleTransform = (500000, 5999000) := by
  unfold apply_transform sampleTransform
  norm_num

theorem sample_round_x : (⌈((500000 : ℚ)) / 1000⌉ * 1000 : ℤ) = 500000 := by norm_num

theorem sample_round_y : (⌈((5999000 : ℚ)) / 1000⌉ * 1000 : ℤ) = 5999000 := by norm_num

/-- Evaluation of the sheet-number derivation on the spec's concrete
scenario: the code returns "550099". -/
theorem dsn_sample :
    determine_sheet_number_from_coords 10 10 sampleTransform = ("550099".toList) := by
  simp only [determine_sheet_number_from_coords, sample_bottom_left]
  rw [sample_round_x, sample_round_y]
  decide

/-! ### Claims -/

/-- Claim C1: for every width, height and transform,
`determine_sheet_number_from_coords` applies the transform to the
bottom-left pixel `(0, height)`, rounds each coordinate up to the next
multiple of 1000 (the least multiple of 1000 that is at least the value,
so exact multiples stay fixed), formats both rounded values as integer
strings, and returns the interleave `x[0] + y[0] + x[1:3] + y[1:3]` -
which differs from the concatenation `x[0:3] + y[0:3]` (witnessed at the
spec's concrete scenario). -/
theorem C1_sheet_number_interleave :
    (∀ (w h : Nat) (t : AffineTransform),
        determine_sheet_number_from_coords w h t =
          specSheetInterleave
            (pyIntStr (specRoundUp1000 (apply_transform 0 (h : ℚ) t).1))
            (pyIntStr (specRoundUp1000 (apply_transform 0 (h : ℚ) t).2)))
    ∧ (∀ v : ℚ, v ≤ ((specRoundUp1000 v : ℤ) : ℚ) ∧ (1000 : ℤ) ∣ specRoundUp1000 v)
    ∧ (∀ (v : ℚ) (m : ℤ), (1000 : ℤ) ∣ m → v ≤ (m : ℚ) → specRoundUp1000 v ≤ m)
    ∧ (∀ k : ℤ, specRoundUp1000 ((1000 * k : ℤ) : ℚ) = 1000 * k)
    ∧ (∀ x y : List Char, 3 ≤ x.length → 3 ≤ y.length →
        (specSheetInterleave x y).length = 6)
    ∧ determine_sheet_number_from_coords 10 10 sampleTransform ≠
        (pyIntStr (specRoundUp1000 (apply_transform 0 ((10 : Nat) : ℚ) sampleTransform).1)).take 3 ++
        (pyIntStr (specRoundUp1000 (apply_transform 0 ((10 : Nat) : ℚ) sampleTransform).2)).take 3 := by
  refine ⟨fun w h t => rfl, ?_, ?_, ?_, ?_, ?_⟩
  · intro v
    constructor
    · have hle := Int.le_ceil (v / 1000)
      have h2 : v / 1000 * 1000 ≤ ((⌈v / 1000⌉ : ℚ)) * 1000 :=
        mul_le_mul_of_nonneg_right hle (by norm_num)
      calc v = v / 1000 * 1000 := by field_simp
        _ ≤ ((⌈v / 1000⌉ : ℚ)) * 1000 := h2
        _ = ((⌈v / 1000⌉ * 1000 : ℤ) : ℚ) := by push_cast; ring
    · exact dvd_mul_left 1000 _
  · rintro v m ⟨k, rfl⟩ hvm
    have h : v / 1000 ≤ (k : ℚ) := by
      rw [div_le_iff₀ (by norm_num : (0 : ℚ) < 1000)]
      calc v ≤ ((1000 * k : ℤ) : ℚ) := hvm
        _ = (k : ℚ) * 1000 := by push_cast; ring
    have h2 : ⌈v / 1000⌉ ≤ k := Int.ceil_le.mpr h
    calc ⌈v / 1000⌉ * 1000 ≤ k * 1000 := mul_le_mul_of_nonneg_right h2 (by norm_num)
      _ = 1000 * k := by ring
  · intro k
    unfold specRoundUp1000
    have h : ((1000 * k : ℤ) : ℚ) / 1000 = (k : ℚ) := by
      push_cast
      field_simp
    rw [h, Int.ceil_intCast]
    ring
  · intro x y hx hy
    simp only [specSheetInterleave, List.length_append, List.length_take, List.length_drop]
    omega
  · rw [dsn_sample]
    rw [show (apply_transform 0 ((10 : Nat) : ℚ) sampleTransform).1 = (500000 : ℚ) from by
      rw [sample_bottom_left]]
    rw [show (apply_transform 0 ((10 : Nat) : ℚ) sampleTransform).2 = (5999000 : ℚ) from by
      rw [sample_bottom_left]]
    rw [show specRoundUp1000 ((500000 : ℚ)) = 500000 from sample_round_x]
    rw [show specRoundUp1000 ((5999000 : ℚ)) = 5999000 from sample_round_y]
    decide

/-- Witness for C1: the round-up facts at concrete inputs, with the
hypotheses of the minimality conjunct discharged at `v = 1500, m = 2000`. -/
theorem C1_witness :
    ((1500 : ℚ) ≤ ((specRoundUp1000 1500 : ℤ) : ℚ) ∧ (1000 : ℤ) ∣ specRoundUp1000 1500)
    ∧ specRoundUp1000 1500 ≤ 2000
    ∧ specRoundUp1000 ((1000 * 7 : ℤ) : ℚ) = 1000 * 7
    ∧ (specSheetInterleave ("500000".toList) ("5999000".toList)).length = 6 :=
  ⟨C1_sheet_number_interleave.2.1 1500,
   C1_sheet_number_interleave.2.2.1 1500 2000 (by decide) (by norm_num),
   C1_sheet_number_interleave.2.2.2.1 7,
   C1_sheet_number_interleave.2.2.2.2.1 ("500000".toList) ("5999000".toList)
     (by decide) (by decide)⟩

/-- Claim C2 counterexample: on the spec's concrete scenario the code
returns "550099", not "550509" as the claim states. -/
theorem C2_counterexample :
    determine_sheet_number_from_coords 10 10 sampleTransform ≠ ("550509".toList) := by
  rw [dsn_sample]
  decide

/-- Claim C2 (amended): on the concrete input the bottom-left pixel
transforms to `(500000, 5999000)`, the ceilings stay `500000` and
`5999000`, and the sheet number is `"550099"`, built as
`"5" + "5" + "00" + "99"` (`x[1:3]` of `"500000"` is `"00"`). -/
theorem C2_amended_sheet_number :
    apply_transform 0 ((10 : Nat) : ℚ) sampleTransform = (500000, 5999000)
    ∧ (⌈((500000 : ℚ)) / 1000⌉ * 1000 : ℤ) = 500000
    ∧ (⌈((5999000 : ℚ)) / 1000⌉ * 1000 : ℤ) = 5999000
    ∧ determine_sheet_number_from_coords 10 10 sampleTransform = ("550099".toList)
    ∧ ("550099".toList) = ("5".toList) ++ ("5".toList) ++ ("00".toList) ++ ("99".toList) :=
  ⟨sample_bottom_left, sample_round_x, sample_round_y, dsn_sample, by decide⟩

/-- Claim C5: the filename `17836_26_9285_UpperHirst.zip` parses to sheet
number "269285" with seam id "17836"; the pattern is found at index 6
with length 7 (the `26_9285` form), and the 6 characters before it are
the seam segment `17836_`. -/
theorem C5_concrete_filename :
    parse_filename_parts ("17836_26_9285_UpperHirst.zip".toList) =
        some ("269285".toList, "17836".toList)
    ∧ get_sheet_number_from_filename ("17836_26_9285_UpperHirst.zip".toList) =
        some ("269285".toList)
    ∧ findPattern (dropExt ("17836_26_9285_UpperHirst.zip".toList)) = some (6, 7)
    ∧ ((dropExt ("17836_26_9285_UpperHirst.zip".toList)).drop 6).take 7 = "26_9285".toList
    ∧ (dropExt ("17836_26_9285_UpperHirst.zip".toList)).take 6 = "17836_".toList := by
  refine ⟨by decide, by decide, by decide, by decide, by decide⟩

/-- Claim C9: the two filename parsers have different acceptance sets:
`17836_433857.png` is accepted by the pattern-search parser (whose
extension stripping takes any extension) but rejected by the
split-at-first-underscore parser (whose extension stripping knows only
zip/jpg/jpeg/tif/tiff, leaving `.png` to break the trailing-separator
check). -/
theorem C9_parsers_not_equivalent :
    ∃ filename : List Char,
      (get_sheet_number_from_filename filename).isSome = true ∧
      (validate_filename filename).is_valid = false :=
  ⟨"17836_433857.png".toList, by decide, by decide⟩

/-- Claim C10: contrary to the claim, the JPEG header scan does not
terminate on every finite byte stream: on `FF D8 FF E0` the 2-byte
length read returns no bytes (value 0) and the relative seek of
`0 - 2` re-positions onto the same `FF E0` marker, forever. -/
theorem C10_jpeg_scan_loops : gidDiverges badJpegBytes :=
  fun fuel => gid_badJpegBytes fuel

/-- Claim C3: `read_world_file` succeeds iff the selected sidecar
(`.jgwx` preferred, else `.jgw`) exists and has exactly six lines, all
parseable; on success the six values map positionally to
`(a, d, b, e, c, f)` in file-line order. -/
theorem C3_world_file_reader (jgwx jgw : Option WorldLines) :
    ((∃ t, read_world_file jgwx jgw = .ok t) ↔
      ∃ lines, selectWorldFile jgwx jgw = some lines ∧ lines.length = 6 ∧
        ∀ l ∈ lines, l.isSome = true)
    ∧ (∀ v0 v1 v2 v3 v4 v5 : ℚ,
        selectWorldFile jgwx jgw =
            some [some v0, some v1, some v2, some v3, some v4, some v5] →
        read_world_file jgwx jgw = .ok ⟨v0, v1, v2, v3, v4, v5⟩)
    ∧ (∀ lines, jgwx = some lines → selectWorldFile jgwx jgw = some lines)
    ∧ (jgwx = none → selectWorldFile jgwx jgw = jgw) := by
  refine ⟨?_, ?_, ?_, ?_⟩
  · constructor
    · rintro ⟨t, ht⟩
      unfold read_world_file at ht
      split at ht
      · exact Except.noConfusion ht
      · next contents heq =>
        split at ht
        · exact Except.noConfusion ht
        · split at ht
          · next a d b e c f =>
            exact ⟨_, heq, rfl, by simp⟩
          · exact Except.noConfusion ht
    · rintro ⟨lines, hsel, hlen, hall⟩
      match lines, hlen with
      | [l0, l1, l2, l3, l4, l5], _ =>
        obtain ⟨v0, h0⟩ := Option.isSome_iff_exists.mp (hall l0 (by simp))
        obtain ⟨v1, h1⟩ := Option.isSome_iff_exists.mp (hall l1 (by simp))
        obtain ⟨v2, h2⟩ := Option.isSome_iff_exists.mp (hall l2 (by simp))
        obtain ⟨v3, h3⟩ := Option.isSome_iff_exists.mp (hall l3 (by simp))
        obtain ⟨v4, h4⟩ := Option.isSome_iff_exists.mp (hall l4 (by simp))
        obtain ⟨v5, h5⟩ := Option.isSome_iff_exists.mp (hall l5 (by simp))
        subst h0 h1 h2 h3 h4 h5
        refine ⟨⟨v0, v1, v2, v3, v4, v5⟩, ?_⟩
        unfold read_world_file
        rw [hsel]
        rfl
  · intro v0 v1 v2 v3 v4 v5 hsel
    unfold read_world_file
    rw [hsel]
    rfl
  · intro lines hx
    unfold selectWorldFile
    rw [hx]
    rfl
  · intro hx
    unfold selectWorldFile
    rw [hx]
    rfl

/-- Witness for C3: a `.jgwx` sidecar with lines `1..6` yields the
transform `a=1, d=2, b=3, e=4, c=5, f=6`, and the `.jgwx` file is the
selected one. -/
theorem C3_witness :
    read_world_file (some [some 1, some 2, some 3, some 4, some 5, some 6]) none =
        .ok ⟨1, 2, 3, 4, 5, 6⟩
    ∧ selectWorldFile (some [some 1, some 2, some 3, some 4, some 5, some 6]) none =
        some [some 1, some 2, some 3, some 4, some 5, some 6] :=
  ⟨(C3_world_file_reader _ none).2.1 1 2 3 4 5 6 rfl,
   (C3_world_file_reader _ none).2.2.1 _ rfl⟩

/-- Claim C4: the JPEG reader fails `notAJpeg` unless the stream starts
`FF D8` (and otherwise scans from position 2); each scan step fails
`truncated` with fewer than 2 marker bytes left, fails `invalidMarker`
when the first marker byte is not `0xFF`, returns
`(width, height)` read big-endian after a 3-byte skip on an SOF marker
(`0xC0/C1/C2`), and otherwise skips `L - 2` bytes past the 2-byte
big-endian length field `L` and continues at `p + 2 + L`. -/
theorem C4_jpeg_header_scan :
    (∀ (bs : List Nat) (fuel : Nat), bs.take 2 ≠ [255, 216] →
        get_image_dimensions fuel bs = some (.error .notAJpeg))
    ∧ (∀ (bs : List Nat) (fuel : Nat), bs.take 2 = [255, 216] →
        get_image_dimensions fuel bs = jpegScan fuel bs 2)
    ∧ (∀ (bs : List Nat) (p fuel : Nat), bs.length < p + 2 →
        jpegScan (fuel + 1) bs p = some (.error .truncated))
    ∧ (∀ (bs : List Nat) (p fuel : Nat), p + 2 ≤ bs.length → byteAt bs p ≠ 255 →
        jpegScan (fuel + 1) bs p = some (.error .invalidMarker))
    ∧ (∀ (bs : List Nat) (p fuel : Nat), p + 9 ≤ bs.length → byteAt bs p = 255 →
        (byteAt bs (p + 1) = 192 ∨ byteAt bs (p + 1) = 193 ∨ byteAt bs (p + 1) = 194) →
        jpegScan (fuel + 1) bs p =
          some (.ok (256 * byteAt bs (p + 7) + byteAt bs (p + 8),
                     256 * byteAt bs (p + 5) + byteAt bs (p + 6))))
    ∧ (∀ (bs : List Nat) (p fuel : Nat), p + 4 ≤ bs.length → byteAt bs p = 255 →
        byteAt bs (p + 1) ≠ 192 → byteAt bs (p + 1) ≠ 193 → byteAt bs (p + 1) ≠ 194 →
        jpegScan (fuel + 1) bs p =
          jpegScan fuel bs (p + 2 + (256 * byteAt bs (p + 2) + byteAt bs (p + 3)))) := by
  refine ⟨?_, ?_, ?_, ?_, ?_, ?_⟩
  · intro bs fuel h
    unfold get_image_dimensions
    rw [if_neg h]
  · intro bs fuel h
    unfold get_image_dimensions
    rw [if_pos h]
  · intro bs p fuel h
    have hlen : ((bs.drop p).take 2).length ≠ 2 := by
      simp only [List.length_take, List.length_drop]
      omega
    simp only [jpegScan]
    rw [if_pos hlen]
  · intro bs p fuel h hm
    simp only [jpegScan]
    rw [take_two_of_drop bs p h, getD_pair_zero, getD_pair_one]
    rw [if_neg (by simp), if_pos hm]
  · intro bs p fuel h hm hsof
    simp only [jpegScan]
    rw [take_two_of_drop bs p (by omega), getD_pair_zero, getD_pair_one]
    rw [if_neg (by simp), if_neg (not_not_intro hm), if_pos hsof]
    rw [show min (p + 2 + 3) bs.length = p + 5 from by omega]
    rw [show min (p + 5 + 2) bs.length = p + 7 from by omega]
    rw [take_two_of_drop bs (p + 5) (by omega), take_two_of_drop bs (p + 7) (by omega)]
    rw [beVal_two, beVal_two]
  · intro bs p fuel h hm h0 h1 h2
    simp only [jpegScan]
    rw [take_two_of_drop bs p (by omega), getD_pair_zero, getD_pair_one]
    rw [if_neg (by simp), if_neg (not_not_intro hm), if_neg (by simp [h0, h1, h2])]
    rw [take_two_of_drop bs (p + 2) (by omega), beVal_two]
    rw [show min (p + 2 + 2) bs.length = p + 4 from by omega]
    rw [show p + 2 + 1 = p + 3 from by omega]
    rw [show p + 4 + (256 * byteAt bs (p + 2) + byteAt bs (p + 3)) - 2 =
          p + 2 + (256 * byteAt bs (p + 2) + byteAt bs (p + 3)) from by omega]

/-- Witness for C4: each clause applied at a concrete stream. -/
theorem C4_witness :
    get_image_dimensions 3 [1, 2, 3] = some (.error .notAJpeg)
    ∧ get_image_dimensions 4 [255, 216, 255, 192, 0, 17, 8, 0, 32, 0, 48] =
        jpegScan 4 [255, 216, 255, 192, 0, 17, 8, 0, 32, 0, 48] 2
    ∧ jpegScan 1 [255, 216] 2 = some (.error .truncated)
    ∧ jpegScan 1 [255, 216, 0, 0] 2 = some (.error .invalidMarker)
    ∧ jpegScan 1 [255, 216, 255, 192, 0, 17, 8, 0, 32, 0, 48] 2 = some (.ok (48, 32))
    ∧ jpegScan 2 [255, 216, 255, 224, 0, 2, 255, 192, 0, 17, 8, 0, 32, 0, 48] 2 =
        jpegScan 1 [255, 216, 255, 224, 0, 2, 255, 192, 0, 17, 8, 0, 32, 0, 48] 6 := by
  refine ⟨C4_jpeg_header_scan.1 _ 3 (by decide),
    C4_jpeg_header_scan.2.1 _ 4 (by decide),
    C4_jpeg_header_scan.2.2.1 _ 2 0 (by decide),
    C4_jpeg_header_scan.2.2.2.1 _ 2 0 (by decide) (by decide),
    ?_, ?_⟩
  · have h := C4_jpeg_header_scan.2.2.2.2.1 [255, 216, 255, 192, 0, 17, 8, 0, 32, 0, 48]
      2 0 (by decide) (by decide) (by decide)
    rw [h]
    decide
  · have h := C4_jpeg_header_scan.2.2.2.2.2 [255, 216, 255, 224, 0, 2, 255, 192, 0, 17, 8, 0, 32, 0, 48]
      2 1 (by decide) (by decide) (by decide) (by decide) (by decide)
    rw [h]
    decide

/-- Claim C6: on the `.jpg` path, when both translation components `c`
and `f` of the parsed transform lie strictly inside `(-5, 5)`, the
orchestrator returns the near-origin `InvalidGeoreferencing` error (with
`valid = false`) for every fuel - in particular before any image byte is
read; when either component lies outside that open interval the guard
passes and no near-origin error can be produced. -/
theorem C6_near_origin_guard (es : List ZEntry) (img : ZEntry)
    (origName fsn : List Char) (t : AffineTransform)
    (hparse : get_sheet_number_from_filename origName = some fsn)
    (himg : imageEntries es = [img])
    (hjpg : (".jpg".toList).isSuffixOf img.name = true)
    (hwf : read_world_file img.jgwx img.jgw = .ok t) :
    ((-5 < t.c ∧ t.c < 5 ∧ -5 < t.f ∧ t.f < 5) →
      ∀ fuel, validate_map_file (.entries es) origName fuel =
        some ⟨false, some VErr.nearOrigin, some fsn, none, none⟩)
    ∧ (¬ (-5 < t.c ∧ t.c < 5 ∧ -5 < t.f ∧ t.f < 5) →
      ∀ fuel r, validate_map_file (.entries es) origName fuel = some r →
        r.error ≠ some VErr.nearOrigin) := by
  have hred : ∀ fuel, validate_map_file (.entries es) origName fuel =
      processJpg img fsn t fuel := by
    intro fuel
    simp only [validate_map_file, hparse, himg, processImage]
    rw [pathSuffix_jpg hjpg, if_pos (rfl : (".jpg".toList) = ".jpg".toList), hwf]
  constructor
  · intro hbox fuel
    rw [hred fuel]
    unfold processJpg
    rw [if_pos hbox]
  · intro hbox fuel r hr
    rw [hred fuel] at hr
    unfold processJpg at hr
    rw [if_neg hbox] at hr
    split at hr
    · exact Option.noConfusion hr
    · injection hr with hr
      subst hr
      simp
    · split at hr
      · injection hr with hr
        subst hr
        simp
      · split at hr
        · injection hr with hr
          subst hr
          simp
        · injection hr with hr
          subst hr
          simp

/-- Witness for C6: a single-jpg archive whose world file has
`c = f = 0` is rejected as near-origin at fuel 0. -/
theorem C6_witness :
    validate_map_file (.entries [nearOriginEntry]) ("17836_433857.zip".toList) 0 =
      some ⟨false, some VErr.nearOrigin, some ("433857".toList), none, none⟩ :=
  (C6_near_origin_guard [nearOriginEntry] nearOriginEntry
      ("17836_433857.zip".toList) ("433857".toList) ⟨100, 0, 0, -100, 0, 0⟩
      (by decide) (by decide) (by decide) (by decide)).1 (by decide) 0

/-- Claim C7 (amended): with a parsed filename, a corrupt container
yields the corrupt-archive error; when the (case-sensitive, POSIX-glob)
enumeration of non-hidden `*.jpg` / `*.tif` entries yields zero matches
the result is the no-image error; and with more than one match it is the
multiple-images error reporting the count. -/
theorem C7_archive_extractor (origName fsn : List Char)
    (hparse : get_sheet_number_from_filename origName = some fsn) :
    (∀ fuel, validate_map_file .corrupt origName fuel =
        some ⟨false, some VErr.badZip, some fsn, none, none⟩)
    ∧ (∀ es fuel, imageEntries es = [] →
        validate_map_file (.entries es) origName fuel =
          some ⟨false, some VErr.noImage, some fsn, none, none⟩)
    ∧ (∀ es e1 e2 rest fuel, imageEntries es = e1 :: e2 :: rest →
        validate_map_file (.entries es) origName fuel =
          some ⟨false, some (VErr.multipleImages (rest.length + 2)), some fsn, none, none⟩) := by
  refine ⟨?_, ?_, ?_⟩
  · intro fuel
    simp only [validate_map_file, hparse]
  · intro es fuel himg
    simp only [validate_map_file, hparse, himg]
  · intro es e1 e2 rest fuel himg
    simp only [validate_map_file, hparse, himg]

/-- Witness for C7: the three clauses at concrete archives (corrupt,
empty, and one with two `.jpg` files). -/
theorem C7_witness :
    validate_map_file .corrupt ("17836_433857.zip".toList) 0 =
        some ⟨false, some VErr.badZip, some ("433857".toList), none, none⟩
    ∧ validate_map_file (.entries []) ("17836_433857.zip".toList) 0 =
        some ⟨false, some VErr.noImage, some ("433857".toList), none, none⟩
    ∧ validate_map_file (.entries [jpgEntryA, jpgEntryB]) ("17836_433857.zip".toList) 0 =
        some ⟨false, some (VErr.multipleImages 2), some ("433857".toList), none, none⟩ :=
  ⟨(C7_archive_extractor _ _ (by decide)).1 0,
   (C7_archive_extractor _ _ (by decide)).2.1 [] 0 (by decide),
   (C7_archive_extractor _ _ (by decide)).2.2 [jpgEntryA, jpgEntryB] jpgEntryA jpgEntryB [] 0
     (by decide)⟩

/-- Claim C7 counterexample: an archive whose only entry is `A.JPG`
matches the claim's case-insensitive matcher, yet the code's
(case-sensitive) enumeration misses it and reports the no-image error
instead. -/
theorem C7_counterexample :
    specImageMatchCI ("A.JPG".toList) = true
    ∧ validate_map_file (.entries [upperJpgEntry]) ("17836_433857.zip".toList) 0 =
        some ⟨false, some VErr.noImage, some ("433857".toList), none, none⟩ := by
  refine ⟨by decide, by decide⟩

/-- Claim C8 (amended): whenever `validate_map_file` returns a result
(that is, on every run in which the JPEG scan terminates - and on all
paths that never reach it), exactly one of `valid = true` and `error`
set holds, and a warning can only accompany `valid = true` with no
error (the TIFF path). -/
theorem C8_structured_result (arch : Archive) (origName : List Char) (fuel : Nat)
    (r : VResult) (h : validate_map_file arch origName fuel = some r) :
    ((r.valid = true ∧ r.error = none) ∨ (r.valid = false ∧ r.error.isSome = true))
    ∧ (r.warning.isSome = true → r.valid = true ∧ r.error = none) := by
  unfold validate_map_file processImage processJpg at h
  repeat' split at h
  all_goals first
    | exact Option.noConfusion h
    | (injection h with h; subst h; simp)

/-- Witness for C8: the invariant instantiated on a concrete run (a
corrupt archive with an unparseable empty filename). -/
theorem C8_witness :
    (((VResult.mk false (some .filenameInvalid) none none none).valid = true ∧
        (VResult.mk false (some .filenameInvalid) none none none).error = none) ∨
      ((VResult.mk false (some .filenameInvalid) none none none).valid = false ∧
        ((VResult.mk false (some .filenameInvalid) none none none).error).isSome = true))
    ∧ (((VResult.mk false (some .filenameInvalid) none none none).warning).isSome = true →
        (VResult.mk false (some .filenameInvalid) none none none).valid = true ∧
        (VResult.mk false (some .filenameInvalid) none none none).error = none) :=
  C8_structured_result .corrupt [] 0 _ rfl

/-- Claim C8 counterexample: `validate_map_file` does not return a
result for every input - on a well-named archive holding a single
`.jpg` whose stream is `FF D8 FF E0` with a valid far-from-origin world
file, the run stays inside the JPEG scan forever. -/
theorem C8_counterexample :
    vmfDiverges (.entries [loopEntry]) ("17836_433857.zip".toList) := by
  intro fuel
  have h1 : validate_map_file (.entries [loopEntry]) ("17836_433857.zip".toList) fuel =
      processJpg loopEntry ("433857".toList) ⟨100, 0, 0, -100, 500000, 6000000⟩ fuel := rfl
  rw [h1]
  unfold processJpg
  rw [if_neg (by decide)]
  rw [show loopEntry.bytes = badJpegBytes from rfl, gid_badJpegBytes fuel]
